import Mathlib

/-!
# Verification of the cc-mirror State Bridge optimizer

Shallow embedding of `src/optimizer/skill_metrics.py`,
`src/optimizer/skill_adapters.py` and `src/optimizer/optimize.py`.

Strings are modelled as `List Char` (Python `str` is a sequence of code
points, as is Lean's `String`).  Python floats arising in the metrics are
modelled as exact rationals: every value produced by the scoring code is a
sum of elements of \x7b0, 0.3, 0.5, 1\x7d divided by 4, and the spec reasons about
these values exactly.  The handful of regular expressions in the source are
embedded as executable matchers with Python `re.search`/`re.findall`
semantics (leftmost match, greedy/lazy quantifier behaviour); the character
classes `\s` and `\w` are modelled on the character sets relevant to the
repository's data (ASCII plus the common Unicode whitespace code points).
-/

/-- Python whitespace (`str.strip`, `str.isspace`, and `re` `\s`):
the ASCII whitespace characters plus the Unicode space code points. -/
def isPySpace (c : Char) : Bool :=
  [' ', '\t', '\n', '\r', '\x0b', '\x0c',
   '\x1c', '\x1d', '\x1e', '\x1f', '\x85', '\xa0',
   ' ', ' ', ' ', ' ', ' ', ' ', ' ',
   ' ', ' ', ' ', ' ', ' ',
   ' ', ' ', ' ', ' ', '　'].contains c

/-- Regex `\w` word characters (ASCII letters, digits, underscore). -/
def isWordChar (c : Char) : Bool :=
  c.isAlphanum || c == '_'

/-- Python `str.lower` on the characters appearing in this code base
(ASCII case folding). -/
def pyLower (c : Char) : Char := c.toLower

/-- Python `str.strip()`: remove leading and trailing whitespace. -/
def pyStrip (cs : List Char) : List Char :=
  ((cs.dropWhile isPySpace).reverse.dropWhile isPySpace).reverse

/-- Match a literal character sequence at the head of the input, returning
the rest of the input on success. -/
def litP : List Char → List Char → Option (List Char)
  | [], cs => some cs
  | _ :: _, [] => none
  | l :: ls, c :: cs => if c = l then litP ls cs else none

/-- `n` is a prefix of `s`. -/
def isPrefixB (n s : List Char) : Bool := (litP n s).isSome

/-- Does `p` hold at some suffix of the input (i.e. does a pattern match at
some position, the way `re.search` scans every start position)? -/
def anySuffix (p : List Char → Bool) : List Char → Bool
  | [] => p []
  | c :: rest => p (c :: rest) || anySuffix p rest

/-- Python substring test `n in h`. -/
def substr (n h : List Char) : Bool := anySuffix (isPrefixB n) h

/-- `substr` on `String`s. -/
def substrS (n h : String) : Bool := substr n.toList h.toList

/-- Continue a match through an `Option`-valued step. -/
def checkOpt : Option (List Char) → (List Char → Bool) → Bool
  | some r, f => f r
  | none, _ => false

/-- Regex `\s*`. -/
def wsStar (cs : List Char) : List Char := cs.dropWhile isPySpace

/-- Regex `\s+` (at least one whitespace character). -/
def wsPlus : List Char → Option (List Char)
  | [] => none
  | c :: rest => if isPySpace c then some (rest.dropWhile isPySpace) else none

/-- Regex `\w+` (at least one word character). -/
def wordPlus : List Char → Option (List Char)
  | [] => none
  | c :: rest => if isWordChar c then some (rest.dropWhile isWordChar) else none

/-- Does the input start with a word character (regex `\w`)? -/
def wordHead : List Char → Bool
  | [] => false
  | c :: _ => isWordChar c

/-- Does the input start with the character `c`? -/
def charHead (c : Char) : List Char → Bool
  | [] => false
  | d :: _ => decide (d = c)

/-- Regex `c?`: consume `c` if present. -/
def optChar (c : Char) : List Char → List Char
  | [] => []
  | d :: rest => if d = c then rest else d :: rest

/-! ## Scoring metrics (`src/optimizer/skill_metrics.py`) -/

/-- The TypeScript keyword list of `TypeScriptMetric` check 1. -/
def tsKeywords : List String :=
  ["interface", "type", "export", "import", "async", "await", "Promise"]

/-- The test-related keyword list of `TestDocMetric` check 2. -/
def testKeywords : List String :=
  ["test", "verify", "check", "assert", "expect", "mock",
   "fixture", "coverage", "edge case", "error", "should"]

/-- `sum(1 for kw in kws if kw in code)`. -/
def countKeywords (kws : List String) (cs : List Char) : Nat :=
  (kws.filter (fun kw => substr kw.toList cs)).length

/-- `TypeScriptMetric` check 1: at least two TypeScript keywords occur. -/
def tsCheck1 (cs : List Char) : Bool :=
  decide (2 ≤ countKeywords tsKeywords cs)

/-- Alternative `function\s+\w+` of the check-2 regex, anchored here. -/
def tsFuncAt (cs : List Char) : Bool :=
  checkOpt (litP ("function".toList) cs) (fun r => checkOpt (wsPlus r) wordHead)

/-- Alternative `const\s+\w+\s*=\s*async?\s*\(` of the check-2 regex
(note: the regex `async?` is the literal `asyn` followed by an optional
`c`), anchored here. -/
def tsConstAt (cs : List Char) : Bool :=
  checkOpt (litP ("const".toList) cs) (fun r =>
    checkOpt (wsPlus r) (fun r2 =>
      checkOpt (wordPlus r2) (fun r3 =>
        checkOpt (litP ['='] (wsStar r3)) (fun r4 =>
          checkOpt (litP ("asyn".toList) (wsStar r4)) (fun r5 =>
            charHead '(' (wsStar (optChar 'c' r5)))))))

/-- Alternative `class\s+\w+` of the check-2 regex, anchored here. -/
def tsClassAt (cs : List Char) : Bool :=
  checkOpt (litP ("class".toList) cs) (fun r => checkOpt (wsPlus r) wordHead)

/-- `TypeScriptMetric` check 2:
`re.search(r'(function\s+\w+|const\s+\w+\s*=\s*async?\s*\(|class\s+\w+)', code)`. -/
def tsCheck2 (cs : List Char) : Bool :=
  anySuffix (fun s => tsFuncAt s || tsConstAt s || tsClassAt s) cs

/-- Alternative `try\s*\x7b` of the check-3 regex, anchored here. -/
def tsTryAt (cs : List Char) : Bool :=
  checkOpt (litP ("try".toList) cs) (fun r => charHead '\x7b' (wsStar r))

/-- Alternative `catch\s*\(` of the check-3 regex, anchored here. -/
def tsCatchAt (cs : List Char) : Bool :=
  checkOpt (litP ("catch".toList) cs) (fun r => charHead '(' (wsStar r))

/-- Alternative `throw\s+new` of the check-3 regex, anchored here. -/
def tsThrowAt (cs : List Char) : Bool :=
  checkOpt (litP ("throw".toList) cs) (fun r =>
    checkOpt (wsPlus r) (fun r2 => isPrefixB ("new".toList) r2))

/-- `TypeScriptMetric` check 3:
`re.search(r'(try\s*\x7b|catch\s*\(|Error|throw\s+new)', code)`. -/
def tsCheck3 (cs : List Char) : Bool :=
  anySuffix (fun s =>
    tsTryAt s || tsCatchAt s || isPrefixB ("Error".toList) s || tsThrowAt s) cs

/-- The trailing alternation `(function|const|class|interface|type)` of the
check-4 regex. -/
def exportAlts (r : List Char) : Bool :=
  isPrefixB ("function".toList) r || isPrefixB ("const".toList) r ||
  isPrefixB ("class".toList) r || isPrefixB ("interface".toList) r ||
  isPrefixB ("type".toList) r

/-- `export\s+(default\s+)?(function|const|class|interface|type)`,
anchored here. -/
def tsExportAt (cs : List Char) : Bool :=
  checkOpt (litP ("export".toList) cs) (fun r =>
    checkOpt (wsPlus r) (fun r2 =>
      exportAlts r2 ||
        checkOpt (litP ("default".toList) r2) (fun r3 =>
          checkOpt (wsPlus r3) exportAlts)))

/-- `TypeScriptMetric` check 4. -/
def tsCheck4 (cs : List Char) : Bool :=
  anySuffix tsExportAt cs

/-- The `checks` list built by `TypeScriptMetric.__call__` for non-empty
input. -/
def tsPartials (cs : List Char) : List ℚ :=
  [if tsCheck1 cs then 1 else 3/10,
   if tsCheck2 cs then 1 else 0,
   if tsCheck3 cs then 1 else 1/2,
   if tsCheck4 cs then 1 else 1/2]

/-- The `feedback` lines built by `TypeScriptMetric.__call__`. -/
def tsFeedback (cs : List Char) : String :=
  String.intercalate "\n"
    [(if tsCheck1 cs then "✓" else "△") ++ " TypeScript keywords: " ++
       toString (countKeywords tsKeywords cs),
     (if tsCheck2 cs then "✓" else "✗") ++ " Functions/classes found",
     (if tsCheck3 cs then "✓ Error handling: found" else "△ Error handling: missing"),
     (if tsCheck4 cs then "✓ Exports: found" else "△ Exports: missing")]

/-- The score/feedback pair produced by one metric evaluation
(the source attaches `feedback` to a `float` subclass; the spec models it
as a two-field record). -/
structure ScoreResult where
  score : ℚ
  feedback : String
  deriving DecidableEq

/-- `TypeScriptMetric.__call__` on the prediction's `code_output`. -/
def TypeScriptMetric_call (code : String) : ScoreResult :=
  if code.toList = [] ∨ pyStrip code.toList = [] then
    { score := 0, feedback := "No content generated" }
  else
    { score :=
        if tsPartials code.toList = [] then 0
        else (tsPartials code.toList).sum / ((tsPartials code.toList).length : ℚ),
      feedback := tsFeedback code.toList }

/-- Alternative `describe\s*\(` (and the analogous `it\s*\(`, `test\s*\(`)
of the `TestDocMetric` check-1 regex, anchored here (applied to the
lowercased text, since the regex is compiled with `re.IGNORECASE`). -/
def parenAfterLit (lit : List Char) (s : List Char) : Bool :=
  checkOpt (litP lit s) (fun r => charHead '(' (wsStar r))

/-- One position of the `TestDocMetric` check-1 regex
`(describe\s*\(|it\s*\(|test\s*\(|Given|When|Then|beforeEach|afterEach)`,
case-insensitive, on lowercased input. -/
def docStructAt (s : List Char) : Bool :=
  parenAfterLit ("describe".toList) s || parenAfterLit ("it".toList) s ||
  parenAfterLit ("test".toList) s ||
  isPrefixB ("given".toList) s || isPrefixB ("when".toList) s ||
  isPrefixB ("then".toList) s ||
  isPrefixB ("beforeeach".toList) s || isPrefixB ("aftereach".toList) s

/-- `TestDocMetric` check 1. -/
def docCheck1 (cs : List Char) : Bool :=
  anySuffix docStructAt (cs.map pyLower)

/-- `TestDocMetric` check 2: at least three test keywords occur
(`kw.lower() in code.lower()`; every keyword is already lowercase). -/
def docCheck2 (cs : List Char) : Bool :=
  decide (3 ≤ countKeywords testKeywords (cs.map pyLower))

/-- `#+\s+\w` anchored at a line start (`re.MULTILINE` `^`). -/
def headerAt : List Char → Bool
  | '#' :: r =>
      checkOpt (wsPlus (r.dropWhile (fun c => decide (c = '#')))) wordHead
  | _ => false

/-- Does `p` match just after some `\n` of the input (the line starts other
than position 0; `re.MULTILINE` `^` matches only after `\n`)? -/
def afterNewlines (p : List Char → Bool) : List Char → Bool
  | [] => false
  | c :: rest => (decide (c = '\n') && p rest) || afterNewlines p rest

/-- Does the `^`-anchored pattern `p` match at some line start? -/
def atLineStarts (p : List Char → Bool) (cs : List Char) : Bool :=
  p cs || afterNewlines p cs

/-- `TestDocMetric` check 3: `re.search(r'^#+\s+\w', code, re.MULTILINE)`. -/
def docCheck3 (cs : List Char) : Bool :=
  atLineStarts headerAt cs

/-- `[\s]*[-*]\s+\w` anchored at a line start. -/
def listItemAt (s : List Char) : Bool :=
  match wsStar s with
  | c :: r => (decide (c = '-') || decide (c = '*')) && checkOpt (wsPlus r) wordHead
  | [] => false

/-- `TestDocMetric` check 4:
`re.search(r'(^[\s]*[-*]\s+\w|` three backticks `)', code, re.MULTILINE)`. -/
def docCheck4 (cs : List Char) : Bool :=
  substr ("```".toList) cs || atLineStarts listItemAt cs

/-- The `checks` list built by `TestDocMetric.__call__` for non-empty
input. -/
def docPartials (cs : List Char) : List ℚ :=
  [if docCheck1 cs then 1 else 0,
   if docCheck2 cs then 1 else 1/2,
   if docCheck3 cs then 1 else 1/2,
   if docCheck4 cs then 1 else 1/2]

/-- The `feedback` lines built by `TestDocMetric.__call__`. -/
def docFeedback (cs : List Char) : String :=
  String.intercalate "\n"
    [(if docCheck1 cs then "✓" else "✗") ++ " Test structure found",
     (if docCheck2 cs then "✓" else "△") ++ " Test keywords: " ++
       toString (countKeywords testKeywords (cs.map pyLower)),
     (if docCheck3 cs then "✓ Headers: found" else "△ Headers: none"),
     (if docCheck4 cs then "✓ Lists/code blocks: found" else "△ Lists/code blocks: none")]

/-- `TestDocMetric.__call__` on the prediction's `code_output`. -/
def TestDocMetric_call (code : String) : ScoreResult :=
  if code.toList = [] ∨ pyStrip code.toList = [] then
    { score := 0, feedback := "No content generated" }
  else
    { score :=
        if docPartials code.toList = [] then 0
        else (docPartials code.toList).sum / ((docPartials code.toList).length : ℚ),
      feedback := docFeedback code.toList }

/-- `pyStrip` of the empty string. -/
theorem pyStrip_nil : pyStrip [] = [] := rfl

/-- For non-blank input, the TypeScript score is the mean of the four
partial check scores. -/
theorem TypeScriptMetric_call_score (code : String) (h : pyStrip code.toList ≠ []) :
    (TypeScriptMetric_call code).score =
      ((if tsCheck1 code.toList then (1:ℚ) else 3/10) +
       (if tsCheck2 code.toList then (1:ℚ) else 0) +
       (if tsCheck3 code.toList then (1:ℚ) else 1/2) +
       (if tsCheck4 code.toList then (1:ℚ) else 1/2)) / 4 := by
  have hne : ¬(code.toList = [] ∨ pyStrip code.toList = []) := by
    rintro (h1 | h1)
    · exact h (by rw [h1]; rfl)
    · exact h h1
  rw [TypeScriptMetric_call, if_neg hne]
  simp [tsPartials]
  ring

/-- For non-blank input, the test-documentation score is the mean of the
four partial check scores. -/
theorem TestDocMetric_call_score (code : String) (h : pyStrip code.toList ≠ []) :
    (TestDocMetric_call code).score =
      ((if docCheck1 code.toList then (1:ℚ) else 0) +
       (if docCheck2 code.toList then (1:ℚ) else 1/2) +
       (if docCheck3 code.toList then (1:ℚ) else 1/2) +
       (if docCheck4 code.toList then (1:ℚ) else 1/2)) / 4 := by
  have hne : ¬(code.toList = [] ∨ pyStrip code.toList = []) := by
    rintro (h1 | h1)
    · exact h (by rw [h1]; rfl)
    · exact h h1
  rw [TestDocMetric_call, if_neg hne]
  simp [docPartials]
  ring

/-! ## General lemmas about the string utilities -/

/-- Matching a literal against itself followed by anything succeeds. -/
theorem litP_append (l t : List Char) : litP l (l ++ t) = some t := by
  induction l with
  | nil => rfl
  | cons c ls ih => simp [litP, ih]

/-- A literal is a prefix of itself followed by anything. -/
theorem isPrefixB_append (n t : List Char) : isPrefixB n (n ++ t) = true := by
  simp [isPrefixB, litP_append]

/-- `isPrefixB` decides the prefix relation. -/
theorem isPrefixB_iff (n s : List Char) : isPrefixB n s = true ↔ ∃ t, s = n ++ t := by
  induction n generalizing s with
  | nil => simp [isPrefixB, litP]
  | cons c ns ih =>
    cases s with
    | nil => simp [isPrefixB, litP]
    | cons d ss =>
      by_cases hd : d = c
      · subst hd
        rw [show isPrefixB (d :: ns) (d :: ss) = isPrefixB ns ss from by
          simp [isPrefixB, litP]]
        simp [ih]
      · simp [isPrefixB, litP, hd, fun t => (fun h => hd h.1 : d = c ∧ ss = ns ++ t → False)]

/-- `anySuffix` decides matching at some position. -/
theorem anySuffix_iff (p : List Char → Bool) (l : List Char) :
    anySuffix p l = true ↔ ∃ u v, l = u ++ v ∧ p v = true := by
  induction l with
  | nil =>
    constructor
    · intro h
      exact ⟨[], [], rfl, h⟩
    · rintro ⟨u, v, huv, hp⟩
      rcases List.append_eq_nil.1 huv.symm with ⟨rfl, rfl⟩
      exact hp
  | cons c r ih =>
    simp only [anySuffix, Bool.or_eq_true]
    constructor
    · rintro (h | h)
      · exact ⟨[], c :: r, rfl, h⟩
      · rcases ih.1 h with ⟨u, v, huv, hp⟩
        exact ⟨c :: u, v, by rw [huv]; rfl, hp⟩
    · rintro ⟨u, v, huv, hp⟩
      cases u with
      | nil =>
        left
        rw [List.nil_append] at huv
        rw [huv]
        exact hp
      | cons d u' =>
        right
        rw [List.cons_append] at huv
        injection huv with h1 h2
        exact ih.2 ⟨u', v, h2, hp⟩

/-- `substr` decides the substring (infix) relation. -/
theorem substr_iff (n h : List Char) : substr n h = true ↔ ∃ u v, h = u ++ n ++ v := by
  rw [substr, anySuffix_iff]
  constructor
  · rintro ⟨u, v, huv, hp⟩
    rcases (isPrefixB_iff n v).1 hp with ⟨t, rfl⟩
    exact ⟨u, t, by rw [huv, List.append_assoc]⟩
  · rintro ⟨u, v, rfl⟩
    exact ⟨u, n ++ v, by rw [List.append_assoc], isPrefixB_append n v⟩

/-- Substring is transitive. -/
theorem substr_trans {a b c : List Char} (h1 : substr a b = true)
    (h2 : substr b c = true) : substr a c = true := by
  rcases (substr_iff a b).1 h1 with ⟨u1, v1, rfl⟩
  rcases (substr_iff _ c).1 h2 with ⟨u2, v2, rfl⟩
  exact (substr_iff a _).2 ⟨u2 ++ u1, v1 ++ v2, by simp [List.append_assoc]⟩

/-- Substring is preserved by mapping a character function over both sides. -/
theorem substr_map (f : Char → Char) {n h : List Char} (hs : substr n h = true) :
    substr (n.map f) (h.map f) = true := by
  rcases (substr_iff n h).1 hs with ⟨u, v, rfl⟩
  exact (substr_iff _ _).2 ⟨u.map f, v.map f, by simp⟩

/-- If `w` occurs in `cs` and the position matcher `p` accepts everything
that starts with `w`, then `p` matches at some position of `cs`. -/
theorem anySuffix_of_substr (p : List Char → Bool) (w cs : List Char)
    (hw : substr w cs = true) (hp : ∀ t, p (w ++ t) = true) :
    anySuffix p cs = true := by
  rcases (substr_iff w cs).1 hw with ⟨u, v, rfl⟩
  exact (anySuffix_iff p _).2 ⟨u, w ++ v, by rw [List.append_assoc], hp v⟩

/-- Characters of a substring are characters of the full string. -/
theorem mem_of_substr {n h : List Char} {c : Char} (hc : c ∈ n)
    (hsub : substr n h = true) : c ∈ h := by
  rcases (substr_iff n h).1 hsub with ⟨u, v, rfl⟩
  simp [hc]

/-- `pyStrip` returns the empty string exactly for all-whitespace input. -/
theorem pyStrip_eq_nil_iff (cs : List Char) :
    pyStrip cs = [] ↔ ∀ c ∈ cs, isPySpace c = true := by
  constructor
  · intro h c hc
    have h1 : (cs.dropWhile isPySpace).reverse.dropWhile isPySpace = [] := by
      rwa [pyStrip, List.reverse_eq_nil_iff] at h
    have h3 : ∀ x ∈ cs.dropWhile isPySpace, isPySpace x = true := by
      intro x hx
      exact List.dropWhile_eq_nil_iff.1 h1 x (List.mem_reverse.2 hx)
    have hc' : c ∈ cs.takeWhile isPySpace ++ cs.dropWhile isPySpace := by
      rw [List.takeWhile_append_dropWhile]
      exact hc
    rcases List.mem_append.1 hc' with h4 | h4
    · exact List.mem_takeWhile_imp h4
    · exact h3 c h4
  · intro h
    have hd : cs.dropWhile isPySpace = [] :=
      List.dropWhile_eq_nil_iff.2 (fun x hx => h x hx)
    rw [pyStrip, hd]
    rfl

/-- A string containing a non-whitespace character does not strip to
empty. -/
theorem pyStrip_ne_nil {cs : List Char} {c : Char} (hmem : c ∈ cs)
    (hsp : isPySpace c = false) : pyStrip cs ≠ [] := by
  intro h
  have := (pyStrip_eq_nil_iff cs).1 h c hmem
  rw [hsp] at this
  exact Bool.false_ne_true this

/-- The four check outcomes of `TypeScriptMetric` as a vector. -/
def tsOutcome (cs : List Char) (i : Fin 4) : Bool :=
  if i = 0 then tsCheck1 cs
  else if i = 1 then tsCheck2 cs
  else if i = 2 then tsCheck3 cs
  else tsCheck4 cs

/-- The four check outcomes of `TestDocMetric` as a vector. -/
def docOutcome (cs : List Char) (i : Fin 4) : Bool :=
  if i = 0 then docCheck1 cs
  else if i = 1 then docCheck2 cs
  else if i = 2 then docCheck3 cs
  else docCheck4 cs

/-- Raising the first of four averaged summands raises the mean. -/
theorem mean4_mono1 (a1 a2 b c d : ℚ) (h : a2 ≤ a1) :
    (a2 + b + c + d) / 4 ≤ (a1 + b + c + d) / 4 := by linarith

/-- Raising the second of four averaged summands raises the mean. -/
theorem mean4_mono2 (a b1 b2 c d : ℚ) (h : b2 ≤ b1) :
    (a + b2 + c + d) / 4 ≤ (a + b1 + c + d) / 4 := by linarith

/-- Raising the third of four averaged summands raises the mean. -/
theorem mean4_mono3 (a b c1 c2 d : ℚ) (h : c2 ≤ c1) :
    (a + b + c2 + d) / 4 ≤ (a + b + c1 + d) / 4 := by linarith

/-- Raising the fourth of four averaged summands raises the mean. -/
theorem mean4_mono4 (a b c d1 d2 : ℚ) (h : d2 ≤ d1) :
    (a + b + c + d2) / 4 ≤ (a + b + c + d1) / 4 := by linarith

/-- Bounds on the two scores for non-blank input. -/
theorem metric_score_bounds (code : String) (h : pyStrip code.toList ≠ []) :
    13/40 ≤ (TypeScriptMetric_call code).score ∧
    (TypeScriptMetric_call code).score ≤ 1 ∧
    3/8 ≤ (TestDocMetric_call code).score ∧
    (TestDocMetric_call code).score ≤ 1 := by
  rw [TypeScriptMetric_call_score _ h, TestDocMetric_call_score _ h]
  have t1 : (3/10 : ℚ) ≤ (if tsCheck1 code.toList then (1:ℚ) else 3/10) ∧
      (if tsCheck1 code.toList then (1:ℚ) else 3/10) ≤ 1 := by
    split_ifs <;> norm_num
  have t2 : (0 : ℚ) ≤ (if tsCheck2 code.toList then (1:ℚ) else 0) ∧
      (if tsCheck2 code.toList then (1:ℚ) else 0) ≤ 1 := by
    split_ifs <;> norm_num
  have t3 : (1/2 : ℚ) ≤ (if tsCheck3 code.toList then (1:ℚ) else 1/2) ∧
      (if tsCheck3 code.toList then (1:ℚ) else 1/2) ≤ 1 := by
    split_ifs <;> norm_num
  have t4 : (1/2 : ℚ) ≤ (if tsCheck4 code.toList then (1:ℚ) else 1/2) ∧
      (if tsCheck4 code.toList then (1:ℚ) else 1/2) ≤ 1 := by
    split_ifs <;> norm_num
  have d1 : (0 : ℚ) ≤ (if docCheck1 code.toList then (1:ℚ) else 0) ∧
      (if docCheck1 code.toList then (1:ℚ) else 0) ≤ 1 := by
    split_ifs <;> norm_num
  have d2 : (1/2 : ℚ) ≤ (if docCheck2 code.toList then (1:ℚ) else 1/2) ∧
      (if docCheck2 code.toList then (1:ℚ) else 1/2) ≤ 1 := by
    split_ifs <;> norm_num
  have d3 : (1/2 : ℚ) ≤ (if docCheck3 code.toList then (1:ℚ) else 1/2) ∧
      (if docCheck3 code.toList then (1:ℚ) else 1/2) ≤ 1 := by
    split_ifs <;> norm_num
  have d4 : (1/2 : ℚ) ≤ (if docCheck4 code.toList then (1:ℚ) else 1/2) ∧
      (if docCheck4 code.toList then (1:ℚ) else 1/2) ≤ 1 := by
    split_ifs <;> norm_num
  refine ⟨by linarith [t1.1, t2.1, t3.1, t4.1], by linarith [t1.2, t2.2, t3.2, t4.2],
    by linarith [d1.1, d2.1, d3.1, d4.1], by linarith [d1.2, d2.2, d3.2, d4.2]⟩

/-! ## Claim C1 -/

/-- C1, counterexample: on blank input both metrics return score `0.0`,
but the feedback string is `"No content generated"` (capital `N`), not
`"no content generated"` as the claim states. -/
theorem claim_C1_counterexample :
    pyStrip (" ").toList = [] ∧
    (TypeScriptMetric_call " ").score = 0 ∧
    (TestDocMetric_call " ").score = 0 ∧
    (TypeScriptMetric_call " ").feedback ≠ "no content generated" ∧
    (TestDocMetric_call " ").feedback ≠ "no content generated" := by
  refine ⟨by decide, by decide, by decide, by decide, by decide⟩

/-- C1 (amended): for every prediction whose primary output is empty or
whitespace-only, both metric variants return score `0.0` with feedback
`"No content generated"` and perform no further checks (the result is
exactly the terminal score/feedback pair). -/
theorem claim_C1 (code : String)
    (h : code.toList = [] ∨ pyStrip code.toList = []) :
    TypeScriptMetric_call code = { score := 0, feedback := "No content generated" } ∧
    TestDocMetric_call code = { score := 0, feedback := "No content generated" } := by
  constructor
  · simp only [TypeScriptMetric_call]
    rw [if_pos h]
  · simp only [TestDocMetric_call]
    rw [if_pos h]

/-- C1, witness: the amended claim applied to the whitespace string
`" \t\n"`. -/
theorem claim_C1_witness :
    ((" \t\n" : String).toList = [] ∨ pyStrip (" \t\n" : String).toList = []) ∧
    TypeScriptMetric_call " \t\n" = { score := 0, feedback := "No content generated" } := by
  have h : ((" \t\n" : String).toList = [] ∨ pyStrip (" \t\n" : String).toList = []) := by
    right
    decide
  exact ⟨h, (claim_C1 " \t\n" h).1⟩

/-! ## Claim C2 -/

/-- C2, counterexample: the claim says the count-threshold check
contributes `0.3` when the threshold is missed, but the documentation
variant's count-threshold check (check 2) contributes `0.5`: on `"zzz"`
every check fails, the checks list is `[0, 1/2, 1/2, 1/2]`, and the score
is `3/8`, not the `(0 + 3/10 + 1/2 + 1/2)/4 = 13/40` the claim's reading
predicts. -/
theorem claim_C2_counterexample :
    pyStrip ("zzz" : String).toList ≠ [] ∧
    docCheck1 ("zzz" : String).toList = false ∧
    docCheck2 ("zzz" : String).toList = false ∧
    docCheck3 ("zzz" : String).toList = false ∧
    docCheck4 ("zzz" : String).toList = false ∧
    docPartials ("zzz" : String).toList = [0, 1/2, 1/2, 1/2] ∧
    (TestDocMetric_call "zzz").score = 3/8 ∧
    (3/8 : ℚ) ≠ ((0 : ℚ) + 3/10 + 1/2 + 1/2) / 4 := by
  refine ⟨by decide, by decide, by decide, by decide, by decide, ?_, ?_, by norm_num⟩
  · rw [docPartials,
      show docCheck1 ("zzz" : String).toList = false from by decide,
      show docCheck2 ("zzz" : String).toList = false from by decide,
      show docCheck3 ("zzz" : String).toList = false from by decide,
      show docCheck4 ("zzz" : String).toList = false from by decide]
    norm_num
  · rw [TestDocMetric_call_score _ (by decide),
      show docCheck1 ("zzz" : String).toList = false from by decide,
      show docCheck2 ("zzz" : String).toList = false from by decide,
      show docCheck3 ("zzz" : String).toList = false from by decide,
      show docCheck4 ("zzz" : String).toList = false from by decide]
    norm_num

/-- C2 (amended): for every non-blank primary output each variant
evaluates exactly four checks, each partial score lies in
`\x7b0, 0.3, 0.5, 1\x7d`; the hard checks give `1.0/0.0`, the soft presence
checks `1.0/0.5`, the code variant's count-threshold check `1.0/0.3`, the
documentation variant's count-threshold check `1.0/0.5`, and the final
score is the arithmetic mean of the four partial scores. -/
theorem claim_C2 (code : String) (h : pyStrip code.toList ≠ []) :
    ((tsPartials code.toList).length = 4 ∧
     tsPartials code.toList =
       [if decide (2 ≤ countKeywords tsKeywords code.toList) then (1:ℚ) else 3/10,
        if tsCheck2 code.toList then (1:ℚ) else 0,
        if tsCheck3 code.toList then (1:ℚ) else 1/2,
        if tsCheck4 code.toList then (1:ℚ) else 1/2] ∧
     (∀ q ∈ tsPartials code.toList, q ∈ ({0, 3/10, 1/2, 1} : Set ℚ)) ∧
     (TypeScriptMetric_call code).score = (tsPartials code.toList).sum / 4) ∧
    ((docPartials code.toList).length = 4 ∧
     docPartials code.toList =
       [if docCheck1 code.toList then (1:ℚ) else 0,
        if decide (3 ≤ countKeywords testKeywords (code.toList.map pyLower)) then (1:ℚ) else 1/2,
        if docCheck3 code.toList then (1:ℚ) else 1/2,
        if docCheck4 code.toList then (1:ℚ) else 1/2] ∧
     (∀ q ∈ docPartials code.toList, q ∈ ({0, 3/10, 1/2, 1} : Set ℚ)) ∧
     (TestDocMetric_call code).score = (docPartials code.toList).sum / 4) := by
  constructor
  · refine ⟨rfl, rfl, ?_, ?_⟩
    · intro q hq
      simp only [tsPartials, List.mem_cons, List.not_mem_nil, or_false] at hq
      rcases hq with rfl | rfl | rfl | rfl <;>
        · split_ifs <;> simp [Set.mem_insert_iff, Set.mem_singleton_iff]
    · rw [TypeScriptMetric_call_score _ h]
      simp [tsPartials]
      ring
  · refine ⟨rfl, rfl, ?_, ?_⟩
    · intro q hq
      simp only [docPartials, List.mem_cons, List.not_mem_nil, or_false] at hq
      rcases hq with rfl | rfl | rfl | rfl <;>
        · split_ifs <;> simp [Set.mem_insert_iff, Set.mem_singleton_iff]
    · rw [TestDocMetric_call_score _ h]
      simp [docPartials]
      ring

/-- C2, witness: the amended claim applied to `"abc"`. -/
theorem claim_C2_witness :
    pyStrip ("abc" : String).toList ≠ [] ∧
    (TypeScriptMetric_call "abc").score = (tsPartials ("abc" : String).toList).sum / 4 :=
  ⟨by decide, ((claim_C2 "abc" (by decide)).1).2.2.2⟩

/-! ## Claim C8 -/

/-- C8: each variant's score is monotone in the satisfaction of any single
check: if two non-blank texts have the same four check outcomes except
that check `i` is satisfied in the first and not in the second, the first
scores at least as much as the second. -/
theorem claim_C8 :
    (∀ c1 c2 : String, pyStrip c1.toList ≠ [] → pyStrip c2.toList ≠ [] →
      ∀ i : Fin 4, tsOutcome c1.toList i = true → tsOutcome c2.toList i = false →
      (∀ j : Fin 4, j ≠ i → tsOutcome c1.toList j = tsOutcome c2.toList j) →
      (TypeScriptMetric_call c2).score ≤ (TypeScriptMetric_call c1).score) ∧
    (∀ c1 c2 : String, pyStrip c1.toList ≠ [] → pyStrip c2.toList ≠ [] →
      ∀ i : Fin 4, docOutcome c1.toList i = true → docOutcome c2.toList i = false →
      (∀ j : Fin 4, j ≠ i → docOutcome c1.toList j = docOutcome c2.toList j) →
      (TestDocMetric_call c2).score ≤ (TestDocMetric_call c1).score) := by
  constructor
  · intro c1 c2 h1 h2 i hi1 hi2 hagree
    rw [TypeScriptMetric_call_score _ h1, TypeScriptMetric_call_score _ h2]
    fin_cases i
    · have e2 : tsCheck2 c1.toList = tsCheck2 c2.toList := hagree 1 (by decide)
      have e3 : tsCheck3 c1.toList = tsCheck3 c2.toList := hagree 2 (by decide)
      have e4 : tsCheck4 c1.toList = tsCheck4 c2.toList := hagree 3 (by decide)
      have hi1A : tsCheck1 c1.toList = true := hi1
      have hi2A : tsCheck1 c2.toList = false := hi2
      rw [hi1A, hi2A, ← e2, ← e3, ← e4]
      exact mean4_mono1 _ _ _ _ _ (by norm_num)
    · have e2 : tsCheck1 c1.toList = tsCheck1 c2.toList := hagree 0 (by decide)
      have e3 : tsCheck3 c1.toList = tsCheck3 c2.toList := hagree 2 (by decide)
      have e4 : tsCheck4 c1.toList = tsCheck4 c2.toList := hagree 3 (by decide)
      have hi1A : tsCheck2 c1.toList = true := hi1
      have hi2A : tsCheck2 c2.toList = false := hi2
      rw [hi1A, hi2A, ← e2, ← e3, ← e4]
      exact mean4_mono2 _ _ _ _ _ (by norm_num)
    · have e2 : tsCheck1 c1.toList = tsCheck1 c2.toList := hagree 0 (by decide)
      have e3 : tsCheck2 c1.toList = tsCheck2 c2.toList := hagree 1 (by decide)
      have e4 : tsCheck4 c1.toList = tsCheck4 c2.toList := hagree 3 (by decide)
      have hi1A : tsCheck3 c1.toList = true := hi1
      have hi2A : tsCheck3 c2.toList = false := hi2
      rw [hi1A, hi2A, ← e2, ← e3, ← e4]
      exact mean4_mono3 _ _ _ _ _ (by norm_num)
    · have e2 : tsCheck1 c1.toList = tsCheck1 c2.toList := hagree 0 (by decide)
      have e3 : tsCheck2 c1.toList = tsCheck2 c2.toList := hagree 1 (by decide)
      have e4 : tsCheck3 c1.toList = tsCheck3 c2.toList := hagree 2 (by decide)
      have hi1A : tsCheck4 c1.toList = true := hi1
      have hi2A : tsCheck4 c2.toList = false := hi2
      rw [hi1A, hi2A, ← e2, ← e3, ← e4]
      exact mean4_mono4 _ _ _ _ _ (by norm_num)
  · intro c1 c2 h1 h2 i hi1 hi2 hagree
    rw [TestDocMetric_call_score _ h1, TestDocMetric_call_score _ h2]
    fin_cases i
    · have e2 : docCheck2 c1.toList = docCheck2 c2.toList := hagree 1 (by decide)
      have e3 : docCheck3 c1.toList = docCheck3 c2.toList := hagree 2 (by decide)
      have e4 : docCheck4 c1.toList = docCheck4 c2.toList := hagree 3 (by decide)
      have hi1A : docCheck1 c1.toList = true := hi1
      have hi2A : docCheck1 c2.toList = false := hi2
      rw [hi1A, hi2A, ← e2, ← e3, ← e4]
      exact mean4_mono1 _ _ _ _ _ (by norm_num)
    · have e2 : docCheck1 c1.toList = docCheck1 c2.toList := hagree 0 (by decide)
      have e3 : docCheck3 c1.toList = docCheck3 c2.toList := hagree 2 (by decide)
      have e4 : docCheck4 c1.toList = docCheck4 c2.toList := hagree 3 (by decide)
      have hi1A : docCheck2 c1.toList = true := hi1
      have hi2A : docCheck2 c2.toList = false := hi2
      rw [hi1A, hi2A, ← e2, ← e3, ← e4]
      exact mean4_mono2 _ _ _ _ _ (by norm_num)
    · have e2 : docCheck1 c1.toList = docCheck1 c2.toList := hagree 0 (by decide)
      have e3 : docCheck2 c1.toList = docCheck2 c2.toList := hagree 1 (by decide)
      have e4 : docCheck4 c1.toList = docCheck4 c2.toList := hagree 3 (by decide)
      have hi1A : docCheck3 c1.toList = true := hi1
      have hi2A : docCheck3 c2.toList = false := hi2
      rw [hi1A, hi2A, ← e2, ← e3, ← e4]
      exact mean4_mono3 _ _ _ _ _ (by norm_num)
    · have e2 : docCheck1 c1.toList = docCheck1 c2.toList := hagree 0 (by decide)
      have e3 : docCheck2 c1.toList = docCheck2 c2.toList := hagree 1 (by decide)
      have e4 : docCheck3 c1.toList = docCheck3 c2.toList := hagree 2 (by decide)
      have hi1A : docCheck4 c1.toList = true := hi1
      have hi2A : docCheck4 c2.toList = false := hi2
      rw [hi1A, hi2A, ← e2, ← e3, ← e4]
      exact mean4_mono4 _ _ _ _ _ (by norm_num)

/-- C8, witness: `"zzz Error"` and `"zzz"` differ exactly in check 3 of
the code variant, and the former scores at least as much. -/
theorem claim_C8_witness :
    pyStrip ("zzz Error" : String).toList ≠ [] ∧
    pyStrip ("zzz" : String).toList ≠ [] ∧
    tsOutcome ("zzz Error" : String).toList 2 = true ∧
    tsOutcome ("zzz" : String).toList 2 = false ∧
    (TypeScriptMetric_call "zzz").score ≤ (TypeScriptMetric_call "zzz Error").score :=
  ⟨by decide, by decide, by decide, by decide,
    claim_C8.1 "zzz Error" "zzz" (by decide) (by decide) 2 (by decide) (by decide)
      (by decide)⟩

/-! ## Claim C10 -/

/-- C10: for non-blank output the code variant scores at least `0.325` and
the documentation variant at least `0.375`, both at most `1`; a score of
`0` occurs only for blank output. -/
theorem claim_C10 :
    (∀ code : String, pyStrip code.toList ≠ [] →
      13/40 ≤ (TypeScriptMetric_call code).score ∧
      (TypeScriptMetric_call code).score ≤ 1 ∧
      3/8 ≤ (TestDocMetric_call code).score ∧
      (TestDocMetric_call code).score ≤ 1) ∧
    (∀ code : String,
      ((TypeScriptMetric_call code).score = 0 ∨ (TestDocMetric_call code).score = 0) →
      pyStrip code.toList = []) := by
  refine ⟨fun code h => metric_score_bounds code h, ?_⟩
  intro code h0
  by_contra hne
  have hb := metric_score_bounds code hne
  rcases h0 with h0 | h0
  · rw [h0] at hb
    have := hb.1
    norm_num at this
  · rw [h0] at hb
    have := hb.2.2.1
    norm_num at this

/-- C10, witness: `"x"` is non-blank and meets the lower bound (tightly:
every code-variant check fails on it). -/
theorem claim_C10_witness :
    pyStrip ("x" : String).toList ≠ [] ∧ 13/40 ≤ (TypeScriptMetric_call "x").score :=
  ⟨by decide, (claim_C10.1 "x" (by decide)).1⟩

/-! ## Claims C3 and C4: full-credit inputs -/

/-- The code-variant snippet named by claim C4:
`export function foo() { try {} catch(e) { throw new Error(e) } }`. -/
def tsSnippet : String :=
  "export function foo() \x7b try \x7b\x7d catch(e) \x7b throw new Error(e) \x7d \x7d"

/-- The documentation-variant snippet named by claim C3:
`describe("x", () => { it("y", () => { expect(1).toBe(1) }) })`. -/
def docSnippet : String :=
  "describe(\"x\", () => \x7b it(\"y\", () => \x7b expect(1).toBe(1) \x7d) \x7d)"

/-- Any text containing `function f` (literally: `function`, one space, a
word character) passes `TypeScriptMetric` check 2. -/
theorem tsCheck2_of_trigger (cs : List Char)
    (h : substr ("function".toList ++ [' ', 'f']) cs = true) :
    tsCheck2 cs = true := by
  unfold tsCheck2
  apply anySuffix_of_substr _ _ _ h
  intro t
  rw [List.append_assoc]
  have ht : ([' ', 'f'] : List Char) ++ t = ' ' :: 'f' :: t := rfl
  rw [ht]
  have hf : tsFuncAt ("function".toList ++ (' ' :: 'f' :: t)) = true := by
    unfold tsFuncAt
    rw [litP_append]
    simp only [checkOpt, wsPlus]
    rw [if_pos (show isPySpace ' ' = true from by decide)]
    simp only [checkOpt]
    rw [List.dropWhile_cons, if_neg (show ¬ isPySpace 'f' = true from by decide)]
    simp only [wordHead]
    decide
  simp only [Bool.or_eq_true]
  exact Or.inl (Or.inl hf)

/-- Any text containing `Error` passes `TypeScriptMetric` check 3. -/
theorem tsCheck3_of_trigger (cs : List Char)
    (h : substr ("Error".toList) cs = true) :
    tsCheck3 cs = true := by
  unfold tsCheck3
  apply anySuffix_of_substr _ _ _ h
  intro t
  simp only [Bool.or_eq_true]
  exact Or.inl (Or.inr (isPrefixB_append _ t))

/-- Any text containing `export function` passes `TypeScriptMetric`
check 4. -/
theorem tsCheck4_of_trigger (cs : List Char)
    (h : substr ("export".toList ++ (' ' :: "function".toList)) cs = true) :
    tsCheck4 cs = true := by
  unfold tsCheck4
  apply anySuffix_of_substr _ _ _ h
  intro t
  rw [List.append_assoc]
  have ht : ((' ' :: "function".toList) : List Char) ++ t = ' ' :: ("function".toList ++ t) := rfl
  rw [ht]
  unfold tsExportAt
  rw [litP_append]
  simp only [checkOpt, wsPlus]
  rw [if_pos (show isPySpace ' ' = true from by decide)]
  simp only [checkOpt]
  have hfunc : ("function".toList : List Char) = 'f' :: "unction".toList := by decide
  rw [hfunc, List.cons_append, List.dropWhile_cons,
    if_neg (show ¬ isPySpace 'f' = true from by decide)]
  unfold exportAlts
  rw [← List.cons_append, ← hfunc, isPrefixB_append]
  simp

/-- Any text whose lowercasing contains `describe(` passes `TestDocMetric`
check 1. -/
theorem docCheck1_of_trigger (cs : List Char)
    (h : substr ("describe".toList ++ ['(']) (cs.map pyLower) = true) :
    docCheck1 cs = true := by
  unfold docCheck1
  apply anySuffix_of_substr _ _ _ h
  intro t
  rw [List.append_assoc]
  have ht : (['('] : List Char) ++ t = '(' :: t := rfl
  rw [ht]
  have hd : parenAfterLit ("describe".toList) ("describe".toList ++ ('(' :: t)) = true := by
    unfold parenAfterLit
    rw [litP_append]
    simp only [checkOpt, wsStar]
    rw [List.dropWhile_cons, if_neg (show ¬ isPySpace '(' = true from by decide)]
    simp only [charHead]
    decide
  unfold docStructAt
  simp only [Bool.or_eq_true]
  exact Or.inl (Or.inl (Or.inl (Or.inl (Or.inl (Or.inl (Or.inl hd))))))

/-- C3, counterexample: the text consisting of a header, the `describe`
snippet and a fenced code block contains only one test keyword
(`expect`), so check 2 contributes `0.5` and the score is `7/8`, not
`1.0` as the claim states. -/
theorem claim_C3_counterexample :
    substrS docSnippet
      "# Title\ndescribe(\"x\", () => \x7b it(\"y\", () => \x7b expect(1).toBe(1) \x7d) \x7d)\n```\nfoo()\n```\n" = true ∧
    docCheck3 ("# Title\ndescribe(\"x\", () => \x7b it(\"y\", () => \x7b expect(1).toBe(1) \x7d) \x7d)\n```\nfoo()\n```\n" : String).toList = true ∧
    substrS "```"
      "# Title\ndescribe(\"x\", () => \x7b it(\"y\", () => \x7b expect(1).toBe(1) \x7d) \x7d)\n```\nfoo()\n```\n" = true ∧
    (TestDocMetric_call
      "# Title\ndescribe(\"x\", () => \x7b it(\"y\", () => \x7b expect(1).toBe(1) \x7d) \x7d)\n```\nfoo()\n```\n").score = 7/8 ∧
    (7/8 : ℚ) ≠ 1 := by
  refine ⟨by decide, by decide, by decide, ?_, by norm_num⟩
  rw [TestDocMetric_call_score _ (by decide)]
  rw [show docCheck1 ("# Title\ndescribe(\"x\", () => \x7b it(\"y\", () => \x7b expect(1).toBe(1) \x7d) \x7d)\n```\nfoo()\n```\n" : String).toList = true from by decide,
    show docCheck2 ("# Title\ndescribe(\"x\", () => \x7b it(\"y\", () => \x7b expect(1).toBe(1) \x7d) \x7d)\n```\nfoo()\n```\n" : String).toList = false from by decide,
    show docCheck3 ("# Title\ndescribe(\"x\", () => \x7b it(\"y\", () => \x7b expect(1).toBe(1) \x7d) \x7d)\n```\nfoo()\n```\n" : String).toList = true from by decide,
    show docCheck4 ("# Title\ndescribe(\"x\", () => \x7b it(\"y\", () => \x7b expect(1).toBe(1) \x7d) \x7d)\n```\nfoo()\n```\n" : String).toList = true from by decide]
  norm_num

/-- C3 (amended): a text containing the `describe` snippet plus a markdown
header line and a fenced code block scores exactly `1.0` for the
documentation variant, provided it also contains at least three of the
test-related keywords (without that, the keyword-count check contributes
`0.5` instead of `1.0`). -/
theorem claim_C3 (text : String)
    (h1 : substrS docSnippet text = true)
    (h2 : docCheck3 text.toList = true)
    (h3 : substrS "```" text = true)
    (h4 : 3 ≤ countKeywords testKeywords (text.toList.map pyLower)) :
    (TestDocMetric_call text).score = 1 := by
  have h1A : substr docSnippet.toList text.toList = true := h1
  have hne : pyStrip text.toList ≠ [] :=
    pyStrip_ne_nil (mem_of_substr (show 'd' ∈ docSnippet.toList from by decide) h1A)
      (by decide)
  have c1 : docCheck1 text.toList = true := by
    apply docCheck1_of_trigger
    apply substr_trans
      (show substr ("describe".toList ++ ['(']) (docSnippet.toList.map pyLower) = true from
        by decide)
    exact substr_map pyLower h1A
  have c2 : docCheck2 text.toList = true := by
    unfold docCheck2
    exact decide_eq_true h4
  have c4 : docCheck4 text.toList = true := by
    have h3A : substr ("```".toList) text.toList = true := h3
    unfold docCheck4
    rw [h3A]
    simp
  rw [TestDocMetric_call_score _ hne, c1, c2, h2, c4]
  norm_num

/-- C3, witness: a concrete text with the snippet, a header, a fenced
block and three test keywords scores `1.0`. -/
theorem claim_C3_witness :
    substrS docSnippet
      "# Test Plan\nshould verify and check\ndescribe(\"x\", () => \x7b it(\"y\", () => \x7b expect(1).toBe(1) \x7d) \x7d)\n```\nfoo()\n```\n" = true ∧
    (TestDocMetric_call
      "# Test Plan\nshould verify and check\ndescribe(\"x\", () => \x7b it(\"y\", () => \x7b expect(1).toBe(1) \x7d) \x7d)\n```\nfoo()\n```\n").score = 1 :=
  ⟨by decide,
    claim_C3 _ (by decide) (by decide) (by decide) (by decide)⟩

/-- C4: a text containing
`export function foo() { try {} catch(e) { throw new Error(e) } }`
together with the keywords `interface`, `type` and `async` scores exactly
`1.0` for the code variant, all four checks being satisfied. -/
theorem claim_C4 (text : String)
    (h1 : substrS tsSnippet text = true)
    (h2 : substrS "interface" text = true)
    (h3 : substrS "type" text = true)
    (h4 : substrS "async" text = true) :
    tsCheck1 text.toList = true ∧ tsCheck2 text.toList = true ∧
    tsCheck3 text.toList = true ∧ tsCheck4 text.toList = true ∧
    (TypeScriptMetric_call text).score = 1 := by
  have h1A : substr tsSnippet.toList text.toList = true := h1
  have hne : pyStrip text.toList ≠ [] :=
    pyStrip_ne_nil (mem_of_substr (show 'x' ∈ tsSnippet.toList from by decide) h1A)
      (by decide)
  have c1 : tsCheck1 text.toList = true := by
    have hi : substr ("interface".toList) text.toList = true := h2
    have ht : substr ("type".toList) text.toList = true := h3
    unfold tsCheck1 countKeywords tsKeywords
    apply decide_eq_true
    simp only [List.filter_cons, hi, ht, if_true]
    simp only [List.length_cons]
    omega
  have c2 : tsCheck2 text.toList = true := by
    apply tsCheck2_of_trigger
    exact substr_trans
      (show substr ("function".toList ++ [' ', 'f']) tsSnippet.toList = true from by decide)
      h1A
  have c3 : tsCheck3 text.toList = true := by
    apply tsCheck3_of_trigger
    exact substr_trans
      (show substr ("Error".toList) tsSnippet.toList = true from by decide) h1A
  have c4 : tsCheck4 text.toList = true := by
    apply tsCheck4_of_trigger
    exact substr_trans
      (show substr ("export".toList ++ (' ' :: "function".toList)) tsSnippet.toList = true from
        by decide)
      h1A
  refine ⟨c1, c2, c3, c4, ?_⟩
  rw [TypeScriptMetric_call_score _ hne, c1, c2, c3, c4]
  norm_num

/-- C4, witness: a concrete text with the snippet and the three keywords
scores `1.0`. -/
theorem claim_C4_witness :
    substrS tsSnippet
      "interface type async\nexport function foo() \x7b try \x7b\x7d catch(e) \x7b throw new Error(e) \x7d \x7d" = true ∧
    (TypeScriptMetric_call
      "interface type async\nexport function foo() \x7b try \x7b\x7d catch(e) \x7b throw new Error(e) \x7d \x7d").score = 1 :=
  ⟨by decide,
    (claim_C4 _ (by decide) (by decide) (by decide) (by decide)).2.2.2.2⟩

/-! ## Model adapters (`src/optimizer/skill_adapters.py`)

The external generation call (`subprocess.run` of the configured binary)
is an external collaborator: its outcome is modelled as an
`Except String String` parameter — `Except.ok stdout` for a completed
call and `Except.error e` for any raised exception (timeout, missing
binary, ...), `e` being Python's `str(e)` text. -/

/-- The optional language tag of the fence regex
` ```(?:typescript|ts|javascript|js)?\n `: the alternatives (tried in
order) are mutually exclusive once the mandatory `\n` is taken into
account, so the tag is consumed deterministically. -/
def fenceTagDrop (r : List Char) : Option (List Char) :=
  litP ("typescript\n".toList) r <|> litP ("ts\n".toList) r <|>
  litP ("javascript\n".toList) r <|> litP ("js\n".toList) r <|>
  litP ("\n".toList) r

/-- Lazy `(.*?)` up to the closing fence: split at the first occurrence of
three backticks, returning the content before it and the input after it;
`none` when no closing fence exists (the whole match then fails). -/
def splitAtFence : List Char → Option (List Char × List Char)
  | [] => none
  | c :: rest =>
    if isPrefixB ("```".toList) (c :: rest) then some ([], (c :: rest).drop 3)
    else
      match splitAtFence rest with
      | some (pre, post) => some (c :: pre, post)
      | none => none

/-- One anchored attempt of the fence regex: on success, the captured
group and the input after the match. -/
def matchBlockAt (cs : List Char) : Option (List Char × List Char) :=
  match litP ("```".toList) cs with
  | none => none
  | some r =>
    match fenceTagDrop r with
    | none => none
    | some r2 => splitAtFence r2

/-- `re.findall` scanning loop: try each position left to right, resume
after each match.  The fuel is the input length; every step consumes at
least one character. -/
def findBlocksGo : Nat → List Char → List (List Char)
  | 0, _ => []
  | _, [] => []
  | fuel + 1, c :: rest =>
    match matchBlockAt (c :: rest) with
    | some (content, post) => content :: findBlocksGo fuel post
    | none => findBlocksGo fuel rest

/-- All captured fenced-code-block groups of the response, in order. -/
def findBlocks (cs : List Char) : List (List Char) := findBlocksGo cs.length cs

/-- Python `sep.join(xs)`. -/
def joinSep (sep : List Char) : List (List Char) → List Char
  | [] => []
  | [x] => x
  | x :: xs => x ++ sep ++ joinSep sep xs

/-- `TypeScriptCodeAdapter._extract_code`: the `"\n\n"`-join of the fenced
code blocks when at least one is found, the raw response otherwise. -/
def extract_code (stdout : List Char) : List Char :=
  if findBlocks stdout = [] then stdout
  else joinSep ("\n\n".toList) (findBlocks stdout)

/-- The lookahead `(?=##|$)` of the reasoning regex: stop at `##`, at the
end of input, or just before a single trailing newline (Python `$`
without `re.MULTILINE`). -/
def stopHere : List Char → Bool
  | [] => true
  | ['\n'] => true
  | '#' :: '#' :: _ => true
  | _ => false

/-- Characters of the lazy group `(.*?)` up to the lookahead. -/
def takeUntilStop : List Char → List Char
  | [] => []
  | c :: rest => if stopHere (c :: rest) then [] else c :: takeUntilStop rest

/-- `_extract_reasoning` body: find the leftmost `## Reasoning\n`, take
the lazy group up to the lookahead, and strip it; empty when the header
does not occur. -/
def findReason : List Char → List Char
  | [] => []
  | c :: rest =>
    match litP ("## Reasoning\n".toList) (c :: rest) with
    | some r => pyStrip (takeUntilStop r)
    | none => findReason rest

/-- `_extract_reasoning` (identical in both adapter classes). -/
def extract_reasoning (stdout : List Char) : List Char := findReason stdout

/-- The `dspy.Prediction` returned by `TypeScriptCodeAdapter.forward`. -/
structure TSPrediction where
  code_output : String
  reasoning : String
  deriving DecidableEq

/-- The `dspy.Prediction` returned by `TestDocAdapter.forward`. -/
structure DocPrediction where
  code_output : String
  doc_output : String
  reasoning : String
  deriving DecidableEq

/-- `TypeScriptCodeAdapter.forward`, parameterized by the outcome of the
external generation call. -/
def TypeScriptCodeAdapter_forward (outcome : Except String String) : TSPrediction :=
  match outcome with
  | Except.ok stdout =>
      { code_output := String.mk (extract_code stdout.toList),
        reasoning := String.mk (extract_reasoning stdout.toList) }
  | Except.error e =>
      { code_output := "", reasoning := "Error: " ++ e }

/-- `TestDocAdapter.forward`, parameterized by the outcome of the external
generation call.  Note that on success the raw stdout is used verbatim as
`code_output` and `doc_output` — this adapter performs no fenced-block
extraction. -/
def TestDocAdapter_forward (outcome : Except String String) : DocPrediction :=
  match outcome with
  | Except.ok stdout =>
      { code_output := stdout, doc_output := stdout,
        reasoning := String.mk (extract_reasoning stdout.toList) }
  | Except.error e =>
      { code_output := "", doc_output := "", reasoning := "Error: " ++ e }

/-! ## Claim C5 -/

/-- C5: whatever exception text the external invocation produces, both
adapter variants return a Prediction with empty primary output and a
non-empty reasoning string (the `forward` bodies catch every exception in
their `try`/`except` and never re-raise — totality of the embedded
functions over the `Except.error` case). -/
theorem claim_C5 (e : String) :
    (TypeScriptCodeAdapter_forward (Except.error e)).code_output = "" ∧
    (TypeScriptCodeAdapter_forward (Except.error e)).reasoning ≠ "" ∧
    (TestDocAdapter_forward (Except.error e)).code_output = "" ∧
    (TestDocAdapter_forward (Except.error e)).doc_output = "" ∧
    (TestDocAdapter_forward (Except.error e)).reasoning ≠ "" := by
  have hlen : ∀ s : String, ("Error: " ++ s) ≠ "" := by
    intro s hcontra
    have hl := congrArg String.length hcontra
    rw [String.length_append] at hl
    rw [show ("Error: " : String).length = 7 from rfl,
      show ("" : String).length = 0 from rfl] at hl
    omega
  exact ⟨rfl, hlen e, rfl, rfl, hlen e⟩

/-! ## Claim C6 -/

/-- C6, counterexample: on the response ` ```\nhello\n``` ` (which
contains one fenced code block with content `hello\n`), the documentation
variant's primary output is the raw response, not the joined block
contents.  Two further divergences from the claim's wording, at concrete
inputs: on a two-block response the code variant's output is the blocks
joined by `"\n\n"`, not their plain concatenation; and the reasoning
field is the whitespace-stripped section text, not the raw section
contents. -/
theorem claim_C6_counterexample :
    findBlocks ("```\nhello\n```" : String).toList = ["hello\n".toList] ∧
    (TestDocAdapter_forward (Except.ok "```\nhello\n```")).code_output = "```\nhello\n```" ∧
    (TypeScriptCodeAdapter_forward (Except.ok "```\nhello\n```")).code_output = "hello\n" ∧
    ("```\nhello\n```" : String) ≠ "hello\n" ∧
    findBlocks ("```\na\n```x```\nb\n```" : String).toList = ["a\n".toList, "b\n".toList] ∧
    (TypeScriptCodeAdapter_forward (Except.ok "```\na\n```x```\nb\n```")).code_output =
      "a\n\n\nb\n" ∧
    ("a\n\n\nb\n" : String) ≠ "a\nb\n" ∧
    (TypeScriptCodeAdapter_forward (Except.ok "## Reasoning\n x \n")).reasoning = "x" ∧
    ("x" : String) ≠ " x \n" ∧ ("x" : String) ≠ " x " := by
  refine ⟨by decide, rfl, by decide, by decide, by decide, by decide, by decide,
    by decide, by decide, by decide⟩

/-- When the first occurrence of `## Reasoning\n` starts after the prefix
`u` (no occurrence fits inside `u ++ "## Reasoning"`, i.e. starts
earlier), the reasoning extraction is the stripped lazy group read from
the text after that header. -/
theorem findReason_first (u v : List Char)
    (h : substr ("## Reasoning\n".toList) (u ++ ("## Reasoning".toList)) = false) :
    findReason (u ++ ("## Reasoning\n".toList) ++ v) = pyStrip (takeUntilStop v) := by
  induction u with
  | nil =>
    have hhdr : ("## Reasoning\n".toList : List Char) = '#' :: "# Reasoning\n".toList := by
      decide
    rw [List.nil_append, hhdr, List.cons_append]
    simp only [findReason]
    rw [← List.cons_append, ← hhdr, litP_append]
  | cons c u' ih =>
    have hu' : substr ("## Reasoning\n".toList) (u' ++ ("## Reasoning".toList)) = false := by
      have hor : (isPrefixB ("## Reasoning\n".toList) (c :: (u' ++ ("## Reasoning".toList))) ||
          substr ("## Reasoning\n".toList) (u' ++ ("## Reasoning".toList))) = false := h
      exact (Bool.or_eq_false_iff.mp hor).2
    have hnp : isPrefixB ("## Reasoning\n".toList)
        ((c :: u') ++ ("## Reasoning\n".toList) ++ v) = false := by
      by_contra hcontra
      rw [Bool.not_eq_false] at hcontra
      have hpre : ("## Reasoning\n".toList : List Char) <+:
          ((c :: u') ++ ("## Reasoning".toList)) ++ ('\n' :: v) := by
        rcases (isPrefixB_iff _ _).1 hcontra with ⟨t, ht⟩
        refine ⟨t, ?_⟩
        rw [← ht]
        simp [List.append_assoc]
      have hlen : ("## Reasoning\n".toList : List Char).length ≤
          ((c :: u') ++ ("## Reasoning".toList)).length := by
        simp [List.length_append]
      have htake : ("## Reasoning\n".toList : List Char) =
          (((c :: u') ++ ("## Reasoning".toList)) ++ ('\n' :: v)).take
            ("## Reasoning\n".toList : List Char).length :=
        List.prefix_iff_eq_take.1 hpre
      rw [List.take_append_of_le_length hlen] at htake
      have hin : substr ("## Reasoning\n".toList)
          ((c :: u') ++ ("## Reasoning".toList)) = true := by
        rcases (htake ▸ List.take_prefix ("## Reasoning\n".toList : List Char).length
          ((c :: u') ++ ("## Reasoning".toList)) :
            ("## Reasoning\n".toList : List Char) <+:
              (c :: u') ++ ("## Reasoning".toList)) with ⟨w, hw⟩
        exact (substr_iff _ _).2 ⟨[], w, by rw [List.nil_append, hw]⟩
      rw [h] at hin
      exact absurd hin (by decide)
    have hlit : litP ("## Reasoning\n".toList)
        (c :: (u' ++ ("## Reasoning\n".toList) ++ v)) = none := by
      rcases hl : litP ("## Reasoning\n".toList)
          (c :: (u' ++ ("## Reasoning\n".toList) ++ v)) with _ | w
      · rfl
      · exfalso
        have hps : isPrefixB ("## Reasoning\n".toList)
            (c :: (u' ++ ("## Reasoning\n".toList) ++ v)) = true := by
          rw [isPrefixB, hl]
          rfl
        have hps' : isPrefixB ("## Reasoning\n".toList)
            ((c :: u') ++ ("## Reasoning\n".toList) ++ v) = true := hps
        rw [hnp] at hps'
        exact absurd hps' (by decide)
    show findReason ((c :: u') ++ ("## Reasoning\n".toList) ++ v) = _
    rw [show ((c :: u') ++ ("## Reasoning\n".toList) ++ v : List Char) =
      c :: (u' ++ ("## Reasoning\n".toList) ++ v) from by simp]
    simp only [findReason]
    rw [hlit]
    exact ih hu' 

/-- The reasoning extraction returns empty when `## Reasoning\n` does not
occur in the response. -/
theorem findReason_eq_nil {cs : List Char}
    (h : substr ("## Reasoning\n".toList) cs = false) : findReason cs = [] := by
  induction cs with
  | nil => rfl
  | cons c rest ih =>
    have hor : (isPrefixB ("## Reasoning\n".toList) (c :: rest) ||
        substr ("## Reasoning\n".toList) rest) = false := h
    have hx := Bool.or_eq_false_iff.mp hor
    have hlit : litP ("## Reasoning\n".toList) (c :: rest) = none := by
      rcases hl : litP ("## Reasoning\n".toList) (c :: rest) with _ | v
      · rfl
      · exfalso
        have : isPrefixB ("## Reasoning\n".toList) (c :: rest) = true := by
          rw [isPrefixB, hl]
          rfl
        rw [this] at hx
        exact absurd hx.1 (by decide)
    simp only [findReason]
    rw [hlit]
    exact ih hx.2

/-- C6 (amended): the documentation variant's primary output is always
the raw response verbatim; the code variant's primary output is the raw
response when no fenced code block is found and the `"\n\n"`-join of the
block contents when at least one is; both variants' reasoning is empty
when the response has no `## Reasoning` section, and when the response
splits as `u ++ "## Reasoning\n" ++ v` at the first header occurrence,
both variants' reasoning is the whitespace-stripped lazy group read from
`v` (the characters up to the next `##`, the end, or a lone trailing
newline). -/
theorem claim_C6 (stdout : String) :
    (TestDocAdapter_forward (Except.ok stdout)).code_output = stdout ∧
    (findBlocks stdout.toList = [] →
      (TypeScriptCodeAdapter_forward (Except.ok stdout)).code_output = stdout) ∧
    (findBlocks stdout.toList ≠ [] →
      (TypeScriptCodeAdapter_forward (Except.ok stdout)).code_output =
        String.mk (joinSep ("\n\n".toList) (findBlocks stdout.toList))) ∧
    (substr ("## Reasoning\n".toList) stdout.toList = false →
      (TypeScriptCodeAdapter_forward (Except.ok stdout)).reasoning = "" ∧
      (TestDocAdapter_forward (Except.ok stdout)).reasoning = "") ∧
    (∀ u v : List Char,
      stdout.toList = u ++ ("## Reasoning\n".toList) ++ v →
      substr ("## Reasoning\n".toList) (u ++ ("## Reasoning".toList)) = false →
      (TypeScriptCodeAdapter_forward (Except.ok stdout)).reasoning =
        String.mk (pyStrip (takeUntilStop v)) ∧
      (TestDocAdapter_forward (Except.ok stdout)).reasoning =
        String.mk (pyStrip (takeUntilStop v))) := by
  refine ⟨rfl, ?_, ?_, ?_, ?_⟩
  · intro h
    show String.mk (extract_code stdout.toList) = stdout
    rw [extract_code, if_pos h]
    rfl
  · intro h
    show String.mk (extract_code stdout.toList) = _
    rw [extract_code, if_neg h]
  · intro h
    have hr : findReason stdout.toList = [] := findReason_eq_nil h
    constructor
    · show String.mk (extract_reasoning stdout.toList) = ""
      rw [extract_reasoning, hr]
    · show String.mk (extract_reasoning stdout.toList) = ""
      rw [extract_reasoning, hr]
  · intro u v hsplit hfirst
    have hr : findReason stdout.toList = pyStrip (takeUntilStop v) := by
      rw [hsplit]
      exact findReason_first u v hfirst
    constructor
    · show String.mk (extract_reasoning stdout.toList) = _
      rw [extract_reasoning, hr]
    · show String.mk (extract_reasoning stdout.toList) = _
      rw [extract_reasoning, hr]

/-- C6, witness: the amended claim's branches discharged on concrete
responses (`"x"` has no block and no reasoning section; the
counterexample response has one block; `"ok\n## Reasoning\n so \n"` has a
reasoning section whose stripped lazy group is `"so"`). -/
theorem claim_C6_witness :
    findBlocks ("x" : String).toList = [] ∧
    (TypeScriptCodeAdapter_forward (Except.ok "x")).code_output = "x" ∧
    substr ("## Reasoning\n".toList) ("x" : String).toList = false ∧
    (TypeScriptCodeAdapter_forward (Except.ok "x")).reasoning = "" ∧
    findBlocks ("```\nhello\n```" : String).toList ≠ [] ∧
    (TypeScriptCodeAdapter_forward (Except.ok "```\nhello\n```")).code_output =
      String.mk (joinSep ("\n\n".toList) (findBlocks ("```\nhello\n```" : String).toList)) ∧
    ("ok\n## Reasoning\n so \n" : String).toList =
      ("ok\n" : String).toList ++ ("## Reasoning\n".toList) ++ (" so \n" : String).toList ∧
    (TypeScriptCodeAdapter_forward (Except.ok "ok\n## Reasoning\n so \n")).reasoning =
      String.mk (pyStrip (takeUntilStop (" so \n" : String).toList)) ∧
    String.mk (pyStrip (takeUntilStop (" so \n" : String).toList)) = "so" :=
  ⟨by decide, (claim_C6 "x").2.1 (by decide), by decide,
    ((claim_C6 "x").2.2.2.1 (by decide)).1, by decide,
    (claim_C6 "```\nhello\n```").2.2.1 (by decide), by decide,
    ((claim_C6 "ok\n## Reasoning\n so \n").2.2.2.2 ("ok\n" : String).toList
      (" so \n" : String).toList (by decide) (by decide)).1,
    by decide⟩

/-! ## Persistence (`src/optimizer/optimize.py`: `save_optimized_skill`,
`run_optimization`)

File writes are modelled as boolean write-effects; the strings written
are the function arguments themselves.  `difflib.unified_diff` is an
external stdlib collaborator; the only fact used of it is that it yields
at least one output line exactly when the two line sequences differ
(equal sequences produce no opcodes other than `equal`, hence no groups
and no header lines; differing sequences produce at least one group,
hence header lines).  The line sequences are Python
`str.splitlines(keepends=True)`, embedded below. -/

/-- Python line-break characters recognised by `str.splitlines`. -/
def isLineBreak (c : Char) : Bool :=
  ['\n', '\r', '\x0b', '\x0c', '\x1c', '\x1d', '\x1e', '\x85', '\u2028', '\u2029'].contains c

/-- `str.splitlines(keepends=True)` worker: `acc` is the reversed current
line; `\r\n` counts as a single break. -/
def splitKEAux : List Char → List Char → List (List Char)
  | [], acc => if acc = [] then [] else [acc.reverse]
  | c :: rest, acc =>
    if c = '\r' then
      match rest with
      | [] => [acc.reverse ++ ['\r']]
      | d :: rest2 =>
        if d = '\n' then (acc.reverse ++ ['\r', '\n']) :: splitKEAux rest2 []
        else (acc.reverse ++ ['\r']) :: splitKEAux (d :: rest2) []
    else if isLineBreak c then (acc.reverse ++ [c]) :: splitKEAux rest []
    else splitKEAux rest (c :: acc)

/-- Python `s.splitlines(keepends=True)`. -/
def pySplitlines (s : String) : List (List Char) := splitKEAux s.toList []

/-- Concatenating the kept-ends lines restores the input: splitting is
lossless, hence injective. -/
theorem splitKEAux_join :
    ∀ (n : Nat) (cs : List Char), cs.length ≤ n →
      ∀ acc : List Char, (splitKEAux cs acc).flatten = acc.reverse ++ cs := by
  intro n
  induction n with
  | zero =>
    intro cs hlen acc
    have hnil : cs = [] := by
      cases cs with
      | nil => rfl
      | cons c rest => simp at hlen
    subst hnil
    by_cases h : acc = ([] : List Char) <;> simp [splitKEAux, h]
  | succ n ihn =>
    intro cs hlen acc
    cases cs with
    | nil => by_cases h : acc = ([] : List Char) <;> simp [splitKEAux, h]
    | cons c rest =>
      have hrest : rest.length ≤ n := by
        simp only [List.length_cons] at hlen
        omega
      rw [splitKEAux.eq_def]
      by_cases hc : c = '\r'
      · subst hc
        cases rest with
        | nil => simp
        | cons d rest2 =>
          have hrest2 : rest2.length ≤ n := by
            simp only [List.length_cons] at hrest hlen
            omega
          by_cases hd : d = '\n'
          · subst hd
            simp [ihn rest2 hrest2 []]
          · simp [hd, ihn (d :: rest2) hrest []]
      · by_cases hl : isLineBreak c = true
        · simp [hc, hl, ihn rest hrest []]
        · simp [hc, hl, ihn rest hrest (c :: acc)]

/-- Splitting a string into kept-ends lines and concatenating restores
it. -/
theorem pySplitlines_join (s : String) : (pySplitlines s).flatten = s.toList := by
  have h := splitKEAux_join s.toList.length s.toList le_rfl []
  simpa [pySplitlines] using h

/-- The boolean write-effects of `save_optimized_skill`. -/
structure SaveEffects where
  wroteAdapterMd : Bool
  wroteVersionFile : Bool
  wroteDiffFile : Bool
  deriving DecidableEq

/-- Whether `difflib.unified_diff(baseline.splitlines(keepends=True),
instruction.splitlines(keepends=True), ...)` yields any lines: exactly
when the two line sequences differ. -/
def unifiedDiffNonempty (baseline instruction : String) : Bool :=
  decide (pySplitlines baseline ≠ pySplitlines instruction)

/-- `save_optimized_skill`: always writes `adapter.md` and the
timestamped version file, and writes the diff file only when the unified
diff is non-empty (`if diff:`). -/
def save_optimized_skill (instruction baseline : String) : SaveEffects :=
  { wroteAdapterMd := true
    wroteVersionFile := true
    wroteDiffFile := unifiedDiffNonempty baseline instruction }

/-- The persistence-relevant outcome of `run_optimization`: the write
effects and the `"changed"` field of the JSON summary. -/
structure RunPersistOutcome where
  effects : SaveEffects
  changed : Bool
  deriving DecidableEq

/-- The save phase of `run_optimization`: `save_optimized_skill` is
called only when `final_instruction != baseline_content`, and the summary
records `changed = (final_instruction != baseline_content)`. -/
def run_optimization_persist (baseline final : String) : RunPersistOutcome :=
  if final = baseline then
    { effects := { wroteAdapterMd := false, wroteVersionFile := false, wroteDiffFile := false },
      changed := false }
  else
    { effects := save_optimized_skill final baseline, changed := true }

/-! ## Claim C7 -/

/-- C7: the summary's `"changed"` field is true iff the final instruction
differs from the baseline as a string, and both the `adapter.md` write
and the diff-file write happen exactly in the changed case (identical
text leaves them unwritten; a differing string always yields a non-empty
unified diff because kept-ends line splitting is injective). -/
theorem claim_C7 (baseline final : String) :
    ((run_optimization_persist baseline final).changed = true ↔ final ≠ baseline) ∧
    ((run_optimization_persist baseline final).effects.wroteAdapterMd = true ↔
      final ≠ baseline) ∧
    ((run_optimization_persist baseline final).effects.wroteDiffFile = true ↔
      final ≠ baseline) := by
  by_cases h : final = baseline
  · subst h
    simp [run_optimization_persist]
  · have hsplit : pySplitlines baseline ≠ pySplitlines final := by
      intro he
      apply h
      have hjoin := congrArg List.flatten he
      rw [pySplitlines_join, pySplitlines_join] at hjoin
      exact (String.ext hjoin).symm
    simp [run_optimization_persist, h, save_optimized_skill, unifiedDiffNonempty, hsplit]

/-- C7, witness: with baseline `"a"` and final `"b"` the summary records
a change and the diff file is written. -/
theorem claim_C7_witness :
    (run_optimization_persist "a" "b").changed = true ∧
    (run_optimization_persist "a" "b").effects.wroteAdapterMd = true ∧
    (run_optimization_persist "a" "b").effects.wroteDiffFile = true :=
  ⟨(claim_C7 "a" "b").1.mpr (by decide), (claim_C7 "a" "b").2.1.mpr (by decide),
    (claim_C7 "a" "b").2.2.mpr (by decide)⟩

/-! ## The COPRO reflection LM (`src/optimizer/optimize.py`:
`CLIReflectionLM.forward`)

The subprocess (`Popen` + `communicate`) is again an external
collaborator modelled as an `Except String String` outcome: `Except.ok
stdout` on completion, `Except.error e` for any raised exception. -/

/-- The character class `[^\x7b\x7d]` of the JSON-extraction regex. -/
def notBrace (c : Char) : Bool :=
  if c = '\x7b' then false else if c = '\x7d' then false else true

/-- The literal `"proposed_instruction"` (with its double quotes) that
the JSON-extraction regex requires inside the braces. -/
def proposedLit : List Char := "\"proposed_instruction\"".toList

/-- One anchored attempt of
`re.search(r'\x7b[^\x7b\x7d]*"proposed_instruction"[^\x7b\x7d]*\x7d', content)`:
a match starting here exists iff the position holds `\x7b`, the maximal
brace-free run after it is terminated by `\x7d`, and the run contains the
literal; the match (group 0) is then the braced run. -/
def matchJsonAt : List Char → Option (List Char)
  | [] => none
  | c :: rest =>
    if c = '\x7b' ∧ (rest.dropWhile notBrace).head? = some '\x7d' ∧
        substr proposedLit (rest.takeWhile notBrace) = true then
      some (c :: (rest.takeWhile notBrace ++ ['\x7d']))
    else none

/-- `re.search` scanning: the leftmost match of the JSON-extraction
regex. -/
def searchProposedJson : List Char → Option (List Char)
  | [] => none
  | c :: rest =>
    match matchJsonAt (c :: rest) with
    | some m => some m
    | none => searchProposedJson rest

/-- A lowercase hexadecimal digit. -/
def hexDigit (n : Nat) : Char :=
  if n < 10 then Char.ofNat (48 + n) else Char.ofNat (87 + n)

/-- A `\uXXXX` escape. -/
def uEscape (n : Nat) : List Char :=
  ['\\', 'u', hexDigit (n / 4096 % 16), hexDigit (n / 256 % 16),
   hexDigit (n / 16 % 16), hexDigit (n % 16)]

/-- `json.dumps` escaping of one character (default `ensure_ascii`). -/
def jsonEscapeChar (c : Char) : List Char :=
  if c = '"' then ['\\', '"']
  else if c = '\\' then ['\\', '\\']
  else if c = '\n' then ['\\', 'n']
  else if c = '\r' then ['\\', 'r']
  else if c = '\t' then ['\\', 't']
  else if c.toNat = 8 then ['\\', 'b']
  else if c.toNat = 12 then ['\\', 'f']
  else if c.toNat < 32 then uEscape c.toNat
  else if c.toNat < 127 then [c]
  else if c.toNat < 65536 then uEscape c.toNat
  else uEscape (55296 + (c.toNat - 65536) / 1024) ++
       uEscape (56320 + (c.toNat - 65536) % 1024)

/-- `json.dumps` escaping of a string. -/
def jsonEscape (cs : List Char) : List Char := (cs.map jsonEscapeChar).flatten

/-- `json.dumps(\x7b"proposed_instruction": instr,
"proposed_prefix_for_output_field": ""\x7d)`. -/
def coproFallbackJson (instr : List Char) : List Char :=
  ("\x7b\"proposed_instruction\": \"".toList) ++ jsonEscape instr ++
    ("\", \"proposed_prefix_for_output_field\": \"\"\x7d".toList)

/-- The fallback returned when the CLI invocation raises. -/
def fallbackErrorJson : String :=
  "\x7b\"proposed_instruction\": \"Follow the task requirements.\", \"proposed_prefix_for_output_field\": \"\"\x7d"

/-- The fallback returned when the CLI produced no output. -/
def fallbackEmptyJson : String :=
  "\x7b\"proposed_instruction\": \"Follow the task requirements carefully.\", \"proposed_prefix_for_output_field\": \"\"\x7d"

/-- `is_copro_request`: the lowercased prompt contains
`proposed_instruction` or `instruction`. -/
def isCoproRequest (prompt : List Char) : Bool :=
  substr ("proposed_instruction".toList) (prompt.map pyLower) ||
  substr ("instruction".toList) (prompt.map pyLower)

/-- `CLIReflectionLM.forward`, parameterized by the prompt string and the
outcome of the CLI invocation. -/
def CLIReflectionLM_forward (prompt : String) (outcome : Except String String) :
    List String :=
  match outcome with
  | Except.error _ => [fallbackErrorJson]
  | Except.ok stdout =>
    let content := pyStrip stdout.toList
    let content1 :=
      if content ≠ [] then
        match searchProposedJson content with
        | some m => m
        | none =>
          if isCoproRequest prompt.toList then
            coproFallbackJson
              (if content ≠ [] then content.take 2000
               else "Follow the task requirements.".toList)
          else content
      else content
    if content1 = [] then [fallbackEmptyJson] else [String.mk content1]

/-- A substring occurrence survives wrapping in more text. -/
theorem substr_extend {n s : List Char} (c : Char) (d : List Char)
    (h : substr n s = true) : substr n (c :: (s ++ d)) = true := by
  rcases (substr_iff n s).1 h with ⟨u, v, rfl⟩
  refine (substr_iff n _).2 ⟨c :: u, v ++ d, ?_⟩
  simp [List.append_assoc]

/-- A substring occurrence survives appending on the right. -/
theorem substr_append_right {n s : List Char} (d : List Char)
    (h : substr n s = true) : substr n (s ++ d) = true := by
  rcases (substr_iff n s).1 h with ⟨u, v, rfl⟩
  refine (substr_iff n _).2 ⟨u, v ++ d, ?_⟩
  simp [List.append_assoc]

/-- A string with a non-empty substring is non-empty. -/
theorem ne_nil_of_substr {n s : List Char} (h : substr n s = true)
    (hn : n ≠ []) : s ≠ [] := by
  rcases (substr_iff n s).1 h with ⟨u, v, rfl⟩
  intro hcontra
  rcases List.append_eq_nil.1 hcontra with ⟨h1, _⟩
  rcases List.append_eq_nil.1 h1 with ⟨_, h2⟩
  exact hn h2

/-- An anchored JSON-extraction match contains the searched literal. -/
theorem matchJsonAt_contains {cs m : List Char}
    (h : matchJsonAt cs = some m) : substr proposedLit m = true := by
  cases cs with
  | nil => simp [matchJsonAt] at h
  | cons c rest =>
    simp only [matchJsonAt] at h
    split_ifs at h with hcond
    injection h with hm
    subst hm
    exact substr_extend c ['\x7d'] hcond.2.2

/-- Any extracted JSON object contains the searched literal. -/
theorem searchProposedJson_contains {cs m : List Char}
    (h : searchProposedJson cs = some m) : substr proposedLit m = true := by
  induction cs with
  | nil => simp [searchProposedJson] at h
  | cons c rest ih =>
    simp only [searchProposedJson] at h
    rcases hm : matchJsonAt (c :: rest) with _ | m'
    · rw [hm] at h
      exact ih h
    · rw [hm] at h
      injection h with h'
      subst h'
      exact matchJsonAt_contains hm

/-! ## Claim C9 -/

/-- C9, counterexample: on a reflection request whose CLI output is the
JSON object `\x7b"proposed_instruction": "x"\x7d`, that object is extracted
and returned as-is, and it does not contain the field name
`proposed_prefix_for_output_field` — so the returned element is not
always a string containing both fields. -/
theorem claim_C9_counterexample :
    isCoproRequest ("instruction" : String).toList = true ∧
    CLIReflectionLM_forward "instruction"
      (Except.ok "\x7b\"proposed_instruction\": \"x\"\x7d") =
      ["\x7b\"proposed_instruction\": \"x\"\x7d"] ∧
    substrS "proposed_prefix_for_output_field"
      "\x7b\"proposed_instruction\": \"x\"\x7d" = false := by
  refine ⟨by decide, by decide, by decide⟩

/-- C9 (amended): for every reflection request, `forward` returns a
singleton list whose element contains `proposed_instruction`: when the
raw CLI output contains a brace-delimited, nesting-free object with the
quoted field name `proposed_instruction`, the first such object is
returned verbatim (it need not contain
`proposed_prefix_for_output_field`); otherwise — no such object, empty
output, or a raised exception — a synthesized minimal valid JSON
response with both fields is substituted instead of failing. -/
theorem claim_C9 (prompt : String) (outcome : Except String String)
    (h : isCoproRequest prompt.toList = true) :
    ∃ e : String, CLIReflectionLM_forward prompt outcome = [e] ∧
      substrS "proposed_instruction" e = true := by
  cases outcome with
  | error msg => exact ⟨fallbackErrorJson, rfl, by decide⟩
  | ok stdout =>
    simp only [CLIReflectionLM_forward]
    by_cases hc : pyStrip stdout.toList = []
    · refine ⟨fallbackEmptyJson, ?_, by decide⟩
      rw [if_neg (not_not_intro hc)]
      rw [if_pos hc]
    · rcases hm : searchProposedJson (pyStrip stdout.toList) with _ | m
      · refine ⟨String.mk (coproFallbackJson ((pyStrip stdout.toList).take 2000)), ?_, ?_⟩
        · have hne : coproFallbackJson ((pyStrip stdout.toList).take 2000) ≠ [] := by
            unfold coproFallbackJson
            intro hnil
            rcases List.append_eq_nil.1 hnil with ⟨h1, _⟩
            rcases List.append_eq_nil.1 h1 with ⟨h2, _⟩
            exact absurd h2 (by decide)
          have hcD : ¬ pyStrip stdout.data = [] := hc
          have hD : isCoproRequest prompt.data = true := h
          have hneD : coproFallbackJson (List.take 2000 (pyStrip stdout.data)) ≠ [] := hne
          simp [hcD, hD, hneD]
        · show substr ("proposed_instruction".toList)
            (String.mk (coproFallbackJson ((pyStrip stdout.toList).take 2000))).toList = true
          have hpre : substr ("proposed_instruction".toList)
              (("\x7b\"proposed_instruction\": \"" : String).toList) = true := by decide
          unfold coproFallbackJson
          exact substr_append_right _ (substr_append_right _ hpre)
      · have hlit : substr proposedLit m = true := searchProposedJson_contains hm
        have hmne : m ≠ [] := ne_nil_of_substr hlit (by decide)
        refine ⟨String.mk m, ?_, ?_⟩
        · have hcD : ¬ pyStrip stdout.data = [] := hc
          simp [hcD, hmne]
        · show substr ("proposed_instruction".toList) (String.mk m).toList = true
          exact substr_trans
            (show substr ("proposed_instruction".toList) proposedLit = true from by decide)
            hlit

/-- C9, witness: a reflection request whose invocation raises still
yields a singleton JSON response mentioning `proposed_instruction`. -/
theorem claim_C9_witness :
    isCoproRequest ("Please improve the instruction" : String).toList = true ∧
    ∃ e : String,
      CLIReflectionLM_forward "Please improve the instruction" (Except.error "boom") = [e] ∧
      substrS "proposed_instruction" e = true :=
  ⟨by decide, claim_C9 "Please improve the instruction" (Except.error "boom") (by decide)⟩
